import Mathlib

/-!
Verification development for the GSVA wrapper (gseapy/gsva.py).

The Python wrapper is shallowly embedded: pandas DataFrames become a
structure of row labels plus typed columns, cells are `Option ℚ`
(`none` models a missing value, NaN), fallible code returns `Except`.
The Rust core `gsva_rs` and the `load_gmt` helper are not part of the
source tree; they are modelled from the specification and marked so.
-/

namespace GsvaModel

/-- Label of a pandas Index entry: a string, a number, or NaN.
A numeric label is kept as a rational; `pna` models a NaN label. -/
inductive PLabel
  | pstr (s : String)
  | pnum (q : ℚ)
  | pna
deriving DecidableEq

/-- Dtype of a pandas column, as far as the wrapper inspects it:
numeric (selected by select_dtypes(include=[np.number])) or object. -/
inductive Dtype
  | numeric
  | object
deriving DecidableEq

/-- One column of a DataFrame: its label, dtype tag and cells.
A cell is `none` when the entry is missing (NaN). Object-dtype cells
are represented numerically as well; pandas would refuse to aggregate
them, which only shrinks the set of inputs the embedding accepts. -/
structure Col where
  label : PLabel
  dtype : Dtype
  cells : List (Option ℚ)
deriving DecidableEq

/-- A pandas DataFrame: a row index plus a list of columns. -/
structure DataFrame where
  index : List PLabel
  cols : List Col
deriving DecidableEq

/-- Rectangularity: every column has exactly one cell per index entry. -/
def DataFrame.WF (m : DataFrame) : Prop :=
  ∀ c ∈ m.cols, c.cells.length = m.index.length

instance (m : DataFrame) : Decidable m.WF := by
  unfold DataFrame.WF; infer_instance

def PLabel.isStr : PLabel → Bool
  | .pstr _ => true
  | _ => false

/-- Dtype of a pandas Index, as far as the check `index.dtype != "O"`
needs it: an empty index and an index holding any string are object
dtype; an index of numbers (or NaN among numbers) is numeric. -/
def labelsObjectDtype (ls : List PLabel) : Bool :=
  ls.isEmpty || ls.any PLabel.isStr

/-- Turn a column cell into an index label (set_index): numbers stay
numbers, a missing value becomes a NaN label. -/
def cellToLabel : Option ℚ → PLabel
  | some q => .pnum q
  | none => .pna

/-- Embeds rank_metric.set_index(keys=rank_metric.columns[0], inplace=True):
the first column becomes the row index and is removed from the columns.
On a frame with no columns pandas would raise an IndexError; the
embedding returns the frame unchanged there (no traced claim reaches it). -/
def setIndexFirstCol (m : DataFrame) : DataFrame :=
  match m.cols with
  | [] => m
  | c :: rest => { index := c.cells.map cellToLabel, cols := rest }

/-- String rendering of a label under Index.astype(str). The exact
rendering of numbers is irrelevant to every claim; only that the result
is a string matters. -/
def labelAstype : PLabel → PLabel
  | .pstr s => .pstr s
  | .pnum q => .pstr (toString q)
  | .pna => .pstr "nan"

/-- Embeds rank_metric.columns = rank_metric.columns.astype(str). -/
def colsAstypeStr (m : DataFrame) : DataFrame :=
  { m with cols := m.cols.map (fun c => { c with label := labelAstype c.label }) }

/-- Embeds rank_metric.select_dtypes(include=[np.number]). -/
def selectNumeric (m : DataFrame) : DataFrame :=
  { m with cols := m.cols.filter (fun c => c.dtype = Dtype.numeric) }

/-- Embeds rank_metric.isnull().any().sum() > 0. -/
def hasNA (m : DataFrame) : Bool :=
  m.cols.any (fun c => c.cells.any (fun x => x.isNone))

/-- Embeds rank_metric.fillna(0). -/
def fillna0 (m : DataFrame) : DataFrame :=
  { m with cols := m.cols.map (fun c => { c with cells := c.cells.map (fun x => some (x.getD 0)) }) }

/-- Embeds rank_metric.index.duplicated().sum() > 0. -/
def hasDupIdx (m : DataFrame) : Bool :=
  decide (¬ m.index.Nodup)

/-- Total order used to model pandas sorting of groupby keys. pandas
would raise on comparing mixed label types; the order is totalized
(numbers before strings before NaN), which no claim depends on. -/
def plabelLe : PLabel → PLabel → Bool
  | .pnum a, .pnum b => decide (a ≤ b)
  | .pnum _, _ => true
  | .pstr _, .pnum _ => false
  | .pstr a, .pstr b => !(decide (b < a))
  | .pstr _, .pna => true
  | .pna, .pna => true
  | .pna, _ => false

def insertLbl (a : PLabel) : List PLabel → List PLabel
  | [] => [a]
  | b :: bs => if plabelLe a b then a :: b :: bs else b :: insertLbl a bs

def sortLbls : List PLabel → List PLabel
  | [] => []
  | a :: as => insertLbl a (sortLbls as)

/-- Group keys of groupby(level=0): the distinct index labels, sorted
(pandas sorts group keys by default). -/
def groupKeys (ls : List PLabel) : List PLabel :=
  sortLbls ls.dedup

/-- Cells of one column belonging to the rows whose index label is l. -/
def groupCells (idx : List PLabel) (c : Col) (l : PLabel) : List (Option ℚ) :=
  (idx.zip c.cells).filterMap (fun p => if p.1 = l then some p.2 else none)

/-- pandas mean over a group: missing values are skipped; a group with
no numeric value yields NaN. -/
def meanCells (cs : List (Option ℚ)) : Option ℚ :=
  let vs := cs.filterMap id
  if vs.length = 0 then none else some (vs.sum / (vs.length : ℚ))

/-- Embeds rank_metric.groupby(level=0).mean(). -/
def groupbyMean (m : DataFrame) : DataFrame :=
  let keys := groupKeys m.index
  { index := keys,
    cols := m.cols.map (fun c => { c with cells := keys.map (fun l => meanCells (groupCells m.index c l)) }) }

/-- Embeds lines 110-120 of load_data: fill NAs with 0 when any are
present, then average duplicated gene rows when any are present. -/
def finalizeFrame (m : DataFrame) : DataFrame :=
  let a := if hasNA m then fillna0 m else m
  if hasDupIdx a then groupbyMean a else a

/-- Name attribute of a pandas Series, as far as load_data inspects it:
None, a plain Python string (which has no .dtype attribute), or a numpy
scalar carrying a .dtype attribute and an astype(str) rendering. A numpy
scalar never has object dtype, so `exprs.name.dtype != "O"` holds for it. -/
inductive SName
  | noneN
  | pyStr (s : String)
  | npScalar (s : String)
deriving DecidableEq

/-- A pandas Series: index, name attribute, dtype and cells. -/
structure SeriesV where
  index : List PLabel
  name : SName
  dtype : Dtype
  cells : List (Option ℚ)
deriving DecidableEq

/-- Column label produced from a Series name by to_frame. Only reached
after the name has been normalized to a string. -/
def nameToLabel : SName → PLabel
  | .noneN => .pna
  | .pyStr s => .pstr s
  | .npScalar s => .pstr s

/-- Embeds exprs.to_frame(). -/
def toFrame (s : SeriesV) : DataFrame :=
  { index := s.index, cols := [{ label := nameToLabel s.name, dtype := s.dtype, cells := s.cells }] }

/-- Parse result of pd.read_csv on one file: read_csv takes the header
row as the column labels, which are therefore strings by construction;
the first column (index_col=0) becomes the row index. The gct/csv/txt
separator and skiprows options only affect text parsing, which the
embedding absorbs into this already-parsed form. -/
structure PFile where
  index : List PLabel
  cols : List (String × Dtype × List (Option ℚ))
deriving DecidableEq

/-- The filesystem: filenames mapped to parse results. -/
abbrev FS := List (String × PFile)

def lookupFS (fs : FS) (name : String) : Option PFile :=
  (fs.find? (fun p => p.1 == name)).map (fun p => p.2)

/-- The DataFrame pd.read_csv yields for a file. -/
def readAsFrame (f : PFile) : DataFrame :=
  { index := f.index,
    cols := f.cols.map (fun c => { label := PLabel.pstr c.1, dtype := c.2.1, cells := c.2.2 }) }

/-- The data argument of the GSVA constructor: a DataFrame, a Series, a
string, or a non-path-like Python value (None or a list). -/
inductive PyVal
  | pdDataFrame (m : DataFrame)
  | pdSeries (s : SeriesV)
  | pyStrV (s : String)
  | pyNone
  | pyList
deriving DecidableEq

/-- Python exceptions load_data can raise. -/
inductive PyErr
  | attributeError
  | typeError
  | exceptionMsg (s : String)
  | assertionError
deriving DecidableEq

/-- Embeds os.path.isfile(exprs) for the values reaching it: a string is
looked up on the filesystem; None and a list are not path-like, so
os.stat raises a TypeError which isfile does not catch. -/
def osPathIsfile (v : PyVal) (fs : FS) : Except PyErr Bool :=
  match v with
  | .pyStrV s => .ok (lookupFS fs s).isSome
  | .pyNone => .error .typeError
  | .pyList => .error .typeError
  | _ => .ok false

/-- Embeds line 75-76 of load_data: move the first column to the index
when the index is not object dtype. -/
def indexAdjust (m : DataFrame) : DataFrame :=
  if labelsObjectDtype m.index then m else setIndexFirstCol m

/-- Embeds line 77-78 of load_data: stringify the column labels when
they are not object dtype. -/
def colAdjust (m : DataFrame) : DataFrame :=
  if labelsObjectDtype (m.cols.map Col.label) then m else colsAstypeStr m

/-- Embeds the DataFrame branch of load_data (lines 70-80): work on a
copy, adjust the index, adjust the column labels, then keep only
numeric columns. -/
def loadFrameBranch (m : DataFrame) : DataFrame :=
  selectNumeric (colAdjust (indexAdjust m))

/-- Embeds the parsing part of the file branch (lines 91-104): parse the
file (gct or delimited text), stringifying the column labels of a
one-column delimited frame. -/
def fileAdjust (fname : String) (f : PFile) : DataFrame :=
  if fname.endsWith "gct" then readAsFrame f
  else
    let m0 := readAsFrame f
    if m0.cols.length = 1 then colsAstypeStr m0 else m0

/-- Embeds the file branch of load_data (lines 90-106): parse, then keep
only numeric columns. -/
def loadFileBranch (fname : String) (f : PFile) : DataFrame :=
  selectNumeric (fileAdjust fname f)

/-- Embeds GSVA.load_data (lines 67-120). The second component of the
result is the caller's data object after the call: the Series branch
assigns to exprs.name in place, so the caller's Series is mutated; the
DataFrame branch works on a copy and the file branch never writes. -/
def load_data (data : PyVal) (fs : FS) : Except PyErr (DataFrame × PyVal) :=
  match data with
  | .pdDataFrame m => .ok (finalizeFrame (loadFrameBranch m), data)
  | .pdSeries s =>
    match s.name with
    | .noneN =>
      let s2 := { s with name := SName.pyStr "sample1" }
      .ok (finalizeFrame (toFrame s2), .pdSeries s2)
    | .pyStr _ => .error .attributeError
    | .npScalar t =>
      let s2 := { s with name := SName.pyStr t }
      .ok (finalizeFrame (toFrame s2), .pdSeries s2)
  | other =>
    match osPathIsfile other fs with
    | .error e => .error e
    | .ok true =>
      match other with
      | .pyStrV fname =>
        match lookupFS fs fname with
        | some f => .ok (finalizeFrame (loadFileBranch fname f), data)
        | none => .error (.exceptionMsg "Error parsing gene ranking values!")
      | _ => .error (.exceptionMsg "Error parsing gene ranking values!")
    | .ok false => .error (.exceptionMsg "Error parsing gene ranking values!")

/-- Embeds lines 50-58 of GSVA.__init__: the (kernel, rnaseq) pair as a
function of the kcdf argument. -/
def kernelConfig (kcdf : Option String) : Bool × Bool :=
  if kcdf = some "Gaussian" ∨ kcdf = some "gaussian" then (true, false)
  else if kcdf = some "Poisson" ∨ kcdf = some "poisson" then (true, true)
  else (false, false)

/-- Embeds df.clip(lower=0) (line 130): every numeric cell is raised to
at least 0; clip returns a new frame, the input is not written to.
Missing values would pass through unchanged (none survive load_data). -/
def clip0 (m : DataFrame) : DataFrame :=
  { m with cols := m.cols.map (fun c => { c with cells := c.cells.map (Option.map (fun q => max q 0)) }) }

/-- Modelled from the spec: GSEAbase.load_gmt is not under src. Spec 4.1:
intersect each gene set with the genes present in the matrix (duplicates
in a set count once), keep only the sets whose intersection size lies in
the closed interval from min_size to max_size, preserving input order. -/
def load_gmt (geneList : List PLabel) (sets : List (String × List String))
    (minSize maxSize : ℕ) : List (String × List String) :=
  (sets.map (fun st => (st.1, st.2.dedup.filter (fun g => PLabel.pstr g ∈ geneList)))).filter
    (fun st => decide (minSize ≤ st.2.length) && decide (st.2.length ≤ maxSize))

/-- Modelled from the spec: the kernel CDF estimator of the core (spec
4.2) is not under src, and the spec leaves the exact bandwidth formula
open (spec 9). Modelled as a deterministic, rank-preserving empirical
CDF count per gene: the continuous kernel counts values at most x, the
discrete kernel counts values strictly below x. Kernel disabled means
the raw values pass through unchanged. -/
def transformRow (kernel discrete : Bool) (row : List ℚ) : List ℚ :=
  if kernel then
    if discrete then row.map (fun x => ((row.countP (fun y => decide (y < x))) : ℚ))
    else row.map (fun x => ((row.countP (fun y => decide (y ≤ x))) : ℚ))
  else row

/-- Strict ordering of gene indices for one sample: descending value,
ties broken by ascending original index (spec 4.3). -/
def rankBefore (vals : List ℚ) (i j : ℕ) : Bool :=
  let vi := vals.getD i 0
  let vj := vals.getD j 0
  if vj < vi then true else if vi < vj then false else decide (i < j)

def insertRank (vals : List ℚ) (i : ℕ) : List ℕ → List ℕ
  | [] => [i]
  | j :: js => if rankBefore vals i j then i :: j :: js else j :: insertRank vals i js

def sortRank (vals : List ℚ) : List ℕ → List ℕ
  | [] => []
  | i :: is => insertRank vals i (sortRank vals is)

/-- Modelled from the spec: the sample ranker of the core (spec 4.3).
Permutation of the gene indices sorted by descending transformed value
with the deterministic tie-break. -/
def rankSample (vals : List ℚ) : List ℕ :=
  sortRank vals (List.range vals.length)

/-- Random walk of the enrichment statistic (spec 4.4): accumulate the
per-position step and track the maximum and minimum of the running sum. -/
def esWalk (step : ℕ → ℚ) : List ℕ → ℚ → ℚ → ℚ → ℚ × ℚ
  | [], _, mx, mn => (mx, mn)
  | g :: rest, running, mx, mn =>
    let r2 := running + step g
    esWalk step rest r2 (max mx r2) (min mn r2)

/-- Reduction of the walk extrema to one score (spec 4.4): maxDiff,
single-sided KS, and the absolute-value variant. -/
def esReduce (mxDiff absRnk : Bool) (mxP mnN : ℚ) : ℚ :=
  if absRnk then (if mxDiff then mxP + |mnN| else max |mxP| |mnN|)
  else if mxDiff then mxP - mnN
  else if |mnN| ≤ |mxP| then mxP else mnN

/-- Modelled from the spec: the enrichment statistic engine of the core
(spec 4.4) for one gene set and one sample. tau is the weight exponent
(spec default 1), modelled as a natural exponent since a rational raised
to a rational power is not rational. -/
def esScore (transformed : List (List ℚ)) (sample : ℕ) (members : List ℕ) (nGenes : ℕ)
    (tau : ℕ) (mxDiff absRnk : Bool) (ranking : List ℕ) : ℚ :=
  let tval : ℕ → ℚ := fun g => ((transformed.getD g []).getD sample 0)
  let w : ℕ → ℚ := fun g => |tval g| ^ tau
  let sumIn := (members.map w).sum
  let decr : ℚ := 1 / ((nGenes : ℚ) - (members.length : ℚ))
  let step : ℕ → ℚ := fun g => if g ∈ members then w g / sumIn else -decr
  let ext := esWalk step ranking 0 0 0
  esReduce mxDiff absRnk ext.1 ext.2

/-- Modelled from the spec: the worker pool of spec 5. Tasks are executed
in the order given by the schedule; task t writes its value into the
pre-allocated slot t. -/
def execSchedule {α : Type} (task : ℕ → α) : List ℕ → (ℕ → α) → (ℕ → α)
  | [], acc => acc
  | t :: ts, acc => execSchedule task ts (fun i => if i = t then task t else acc i)

/-- Read out the first n slots after running a schedule from empty slots. -/
def phaseRun {α : Type} (task : ℕ → α) (dflt : α) (n : ℕ) (order : List ℕ) : List α :=
  (List.range n).map (execSchedule task order (fun _ => dflt))

/-- A schedule is complete for n tasks when every task below n is run. -/
def covers (order : List ℕ) (n : ℕ) : Prop :=
  ∀ i, i < n → i ∈ order

instance (order : List ℕ) (n : ℕ) : Decidable (covers order n) := by
  unfold covers; infer_instance

/-- Output of the core engine: surviving gene set names, the score
matrix (surviving sets by samples), and the per-sample rankings. -/
structure CoreOut where
  survivors : List String
  scores : List (List ℚ)
  rankings : List (List ℕ)
deriving DecidableEq

/-- Gene indices of the matrix belonging to one gene set. -/
def memberIdx (genes : List PLabel) (gs : List String) : List ℕ :=
  (List.range genes.length).filter (fun g =>
    match genes.getD g PLabel.pna with
    | .pstr s => s ∈ gs
    | _ => false)

/-- Modelled from the spec: gsva_rs, the Rust core, is not under src.
Assembled from the spec components: per-gene kernel transform (phase 1,
parallel over genes), per-sample ranking (phase 2, parallel over
samples), per-sample enrichment columns (phase 3, parallel over
samples), each phase a worker pool writing into pre-indexed slots
(spec 5) driven by an explicit schedule. -/
def gsvaCoreSched (genes : List PLabel) (matrix : List (List ℚ))
    (gmt : List (String × List String)) (kernel discrete mxDiff absRnk : Bool)
    (tau minSize maxSize : ℕ) (oT oR oS : List ℕ) : CoreOut :=
  let n := genes.length
  let nsamp := (matrix.headD []).length
  let taskT : ℕ → List ℚ := fun g => transformRow kernel discrete (matrix.getD g [])
  let transformed := phaseRun taskT [] n oT
  let colOf : ℕ → List ℚ := fun j => (List.range n).map (fun g => (transformed.getD g []).getD j 0)
  let taskR : ℕ → List ℕ := fun j => rankSample (colOf j)
  let rankings := phaseRun taskR [] nsamp oR
  let fsets := load_gmt genes gmt minSize maxSize
  let taskS : ℕ → List ℚ := fun j =>
    fsets.map (fun st => esScore transformed j (memberIdx genes st.2) n tau mxDiff absRnk (rankings.getD j []))
  let scoreCols := phaseRun taskS [] nsamp oS
  { survivors := fsets.map Prod.fst,
    scores := (List.range fsets.length).map (fun i => (List.range nsamp).map (fun j => (scoreCols.getD j []).getD i 0)),
    rankings := rankings }

/-- Configuration state a GSVA object carries into run, as set up by
__init__: the constructor arguments the claims inspect. -/
structure GSVAconf where
  data : PyVal
  gene_sets : List (String × List String)
  kcdf : Option String
  tau : ℕ
  mx_diff : Bool
  abs_rnk : Bool
  min_size : ℕ
  max_size : ℕ
deriving DecidableEq

/-- Observable steps of GSVA.run, in execution order. -/
inductive Event
  | dataLoaded
  | gmtFiltered
  | coreCalled
deriving DecidableEq

/-- What run hands to the core and what the core returns. -/
structure RunRes where
  coreInput : DataFrame
  out : CoreOut
deriving DecidableEq

/-- Embeds df.values.tolist(): the row-major numeric matrix of a frame. -/
def matrixOf (df : DataFrame) : List (List ℚ) :=
  (List.range df.index.length).map (fun i => df.cols.map (fun c => (c.cells.getD i none).getD 0))

/-- The matrix run hands to the core (lines 128-131): the loaded frame,
clipped at 0 exactly when the Poisson kernel mode is selected. -/
def coreInputOf (conf : GSVAconf) (df0 : DataFrame) : DataFrame :=
  if (kernelConfig conf.kcdf).2 then clip0 df0 else df0

/-- The core call of run (lines 135 and 147-159): filter the gene sets
against the loaded genes, then invoke the core on the frame's matrix
with the configured flags and a canonical schedule for each phase. -/
def runResOf (conf : GSVAconf) (df0 : DataFrame) : RunRes :=
  let kc := kernelConfig conf.kcdf
  let df := coreInputOf conf df0
  let gmt := load_gmt df.index conf.gene_sets conf.min_size conf.max_size
  let mat := matrixOf df
  { coreInput := df,
    out := gsvaCoreSched df.index mat gmt kc.1 kc.2 conf.mx_diff conf.abs_rnk
      conf.tau conf.min_size conf.max_size
      (List.range df.index.length) (List.range (mat.headD []).length)
      (List.range (mat.headD []).length) }

/-- Embeds GSVA.run (lines 122-161): load the data, clip at 0 in Poisson
mode, filter the gene sets, assert the size bounds, call the core. The
first component records which steps executed before run returned; the
assert at line 143 fires only after loading and gene-set filtering. -/
def run (conf : GSVAconf) (fs : FS) : List Event × Except PyErr RunRes :=
  match load_data conf.data fs with
  | .error e => ([], .error e)
  | .ok (df0, _) =>
    if conf.min_size ≤ conf.max_size then
      ([.dataLoaded, .gmtFiltered, .coreCalled], .ok (runResOf conf df0))
    else ([.dataLoaded, .gmtFiltered], .error .assertionError)

/-- A frame with no missing cell. -/
def NoNA (m : DataFrame) : Prop :=
  ∀ c ∈ m.cols, ∀ x ∈ c.cells, x ≠ none

instance (m : DataFrame) : Decidable (NoNA m) := by
  unfold NoNA; infer_instance

/-- All column labels of a frame are strings. -/
def StrCols (m : DataFrame) : Prop :=
  ∀ c ∈ m.cols, c.label.isStr = true

instance (m : DataFrame) : Decidable (StrCols m) := by
  unfold StrCols; infer_instance

/-- Every present cell of the frame is non-negative. -/
def NonnegFrame (m : DataFrame) : Prop :=
  ∀ c ∈ m.cols, ∀ x ∈ c.cells, ∀ q : ℚ, x = some q → 0 ≤ q

/-- Rectangularity of the frames an input value carries. -/
def WFInput : PyVal → FS → Prop
  | .pdDataFrame m, _ => m.WF
  | .pdSeries s, _ => s.cells.length = s.index.length
  | .pyStrV _, fs => ∀ p ∈ fs, (readAsFrame p.2).WF
  | _, _ => True

instance (v : PyVal) (fs : FS) : Decidable (WFInput v fs) := by
  cases v <;> unfold WFInput <;> infer_instance

/-- The caller's data object after load_data, compared with the object
passed in: a DataFrame or a filename is returned unchanged (the frame is
copied before processing, line 71), while a Series keeps its index,
cells and dtype but has its name attribute normalized in place
(lines 84-88). run applies no further operation to the caller's object:
the clip at line 130 allocates a new frame and line 132 only rebinds the
attribute self.data. -/
def postObject : PyVal → PyVal → Prop
  | .pdSeries s, .pdSeries s2 =>
    s2.index = s.index ∧ s2.cells = s.cells ∧ s2.dtype = s.dtype ∧
    (s.name = .noneN → s2.name = .pyStr "sample1") ∧
    (∀ t, s.name = .npScalar t → s2.name = .pyStr t)
  | .pdSeries _, _ => False
  | d, d2 => d2 = d

/-- Fallback frame used to read computed values out of an Except. -/
def emptyFrame : DataFrame :=
  { index := [], cols := [] }

/-- Fallback core output used to read computed values out of an Except. -/
def emptyOut : CoreOut :=
  { survivors := [], scores := [], rankings := [] }

/-- Concrete frame for claim C1: gene names as index, one numeric column. -/
def c1frame : DataFrame :=
  { index := [.pstr "g1", .pstr "g2"],
    cols := [{ label := .pstr "s1", dtype := .numeric, cells := [some 1, some 2] }] }

/-- Concrete configuration for claim C1 with min_size > max_size. -/
def c1conf : GSVAconf :=
  { data := .pdDataFrame c1frame, gene_sets := [("S1", ["g1"])], kcdf := some "Gaussian",
    tau := 1, mx_diff := true, abs_rnk := false, min_size := 2, max_size := 1 }

/-- The frame load_data produces for the C1 configuration. -/
def c1df0 : DataFrame :=
  ((load_data c1conf.data []).toOption.map Prod.fst).getD emptyFrame

/-- Concrete frame for claim C2 holding a negative cell. -/
def c2frame : DataFrame :=
  { index := [.pstr "g1", .pstr "g2"],
    cols := [{ label := .pstr "s1", dtype := .numeric, cells := [some (-1), some 2] }] }

/-- Concrete Poisson-mode configuration for claim C2. -/
def c2conf : GSVAconf :=
  { data := .pdDataFrame c2frame, gene_sets := [("S1", ["g1", "g2"])], kcdf := some "Poisson",
    tau := 1, mx_diff := true, abs_rnk := false, min_size := 1, max_size := 5 }

/-- The frame load_data produces for the C2 configuration. -/
def c2df0 : DataFrame :=
  ((load_data c2conf.data []).toOption.map Prod.fst).getD emptyFrame

/-- The run result for the C2 configuration. -/
def c2res : RunRes :=
  ((run c2conf []).2.toOption).getD { coreInput := emptyFrame, out := emptyOut }

/-- Concrete frame for claim C3 holding a missing cell and a duplicated
gene label. -/
def c3frame : DataFrame :=
  { index := [.pstr "g1", .pstr "g1", .pstr "g2"],
    cols := [{ label := .pstr "s1", dtype := .numeric, cells := [some 1, none, some 3] }] }

/-- The frame load_data produces for the C3 input. -/
def c3df : DataFrame :=
  ((load_data (.pdDataFrame c3frame) []).toOption.map Prod.fst).getD emptyFrame

/-- Concrete gene list for claim C5. -/
def c5genes : List PLabel := [.pstr "g1", .pstr "g2"]

/-- Concrete matrix for claim C5: two genes, two samples. -/
def c5matrix : List (List ℚ) := [[1, 2], [3, 4]]

/-- Concrete gene sets for claim C5. -/
def c5gmt : List (String × List String) := [("S1", ["g1", "g2"])]

/-- Concrete Series for the C6 counterexample: its name is None. -/
def c6s : SeriesV :=
  { index := [.pstr "g1"], name := .noneN, dtype := .numeric, cells := [some 5] }

/-- Concrete Series for the C6 witness: a numpy scalar name. -/
def c6sw : SeriesV :=
  { index := [.pstr "g2"], name := .npScalar "7", dtype := .numeric, cells := [some 3] }

/-- The frame load_data produces for the C6 witness Series. -/
def c6wdf : DataFrame :=
  ((load_data (.pdSeries c6sw) []).toOption.map Prod.fst).getD emptyFrame

/-- The caller's object after load_data for the C6 witness Series. -/
def c6post : PyVal :=
  ((load_data (.pdSeries c6sw) []).toOption.map Prod.snd).getD .pyNone

/-- Concrete frame for the C7 counterexample: the column index has
object dtype (it mixes a number and a string), so the label coercion at
line 77 is skipped and a non-string sample label survives. -/
def c7m : DataFrame :=
  { index := [.pstr "g1"],
    cols := [{ label := .pnum 1, dtype := .numeric, cells := [some 1] },
             { label := .pstr "a", dtype := .numeric, cells := [some 2] }] }

/-- Concrete frame for the C7 witness: a purely numeric column index,
which line 78 coerces to strings. -/
def c7wm : DataFrame :=
  { index := [.pstr "g1"],
    cols := [{ label := .pnum 2, dtype := .numeric, cells := [some 1] }] }

/-- The frame load_data produces for the C7 witness input. -/
def c7wdf : DataFrame :=
  ((load_data (.pdDataFrame c7wm) []).toOption.map Prod.fst).getD emptyFrame

/-- Concrete Series for claim C9 whose name is a plain Python string. -/
def c9sa : SeriesV :=
  { index := [.pstr "g1"], name := .pyStr "colA", dtype := .numeric, cells := [some 1] }

/-- Concrete Series for claim C9 whose name is None. -/
def c9sb : SeriesV :=
  { index := [.pstr "g1"], name := .noneN, dtype := .numeric, cells := [some 1] }

/-- Concrete frame for claim C10 with one numeric and one object column. -/
def c10m : DataFrame :=
  { index := [.pstr "g1"],
    cols := [{ label := .pstr "s1", dtype := .numeric, cells := [some 1] },
             { label := .pstr "txt", dtype := .object, cells := [some 0] }] }

/-- The frame load_data produces for the C10 witness input. -/
def c10df : DataFrame :=
  ((load_data (.pdDataFrame c10m) []).toOption.map Prod.fst).getD emptyFrame

theorem insertLbl_perm (a : PLabel) (l : List PLabel) : (insertLbl a l).Perm (a :: l) := by
  induction l with
  | nil => simp [insertLbl]
  | cons b bs ih =>
    unfold insertLbl
    by_cases h : plabelLe a b = true
    · simp [h]
    · simp only [h, if_false]
      exact ((ih.cons b).trans (List.Perm.swap a b bs))

theorem sortLbls_perm (l : List PLabel) : (sortLbls l).Perm l := by
  induction l with
  | nil => simp [sortLbls]
  | cons a as ih => exact (insertLbl_perm a (sortLbls as)).trans (ih.cons a)

theorem groupKeys_nodup (ls : List PLabel) : (groupKeys ls).Nodup :=
  ((sortLbls_perm ls.dedup).nodup_iff).mpr (List.nodup_dedup ls)

theorem mem_groupKeys {l : PLabel} {ls : List PLabel} : l ∈ groupKeys ls ↔ l ∈ ls := by
  unfold groupKeys
  rw [(sortLbls_perm ls.dedup).mem_iff, List.mem_dedup]

theorem groupCells_mem_of_mem_idx {idx : List PLabel} {c : Col} {l : PLabel}
    (hwf : c.cells.length = idx.length) (hl : l ∈ idx) :
    ∃ x, x ∈ groupCells idx c l := by
  have hmap : (idx.zip c.cells).map Prod.fst = idx :=
    List.map_fst_zip idx c.cells (le_of_eq hwf.symm)
  rw [← hmap] at hl
  obtain ⟨p, hp, hfst⟩ := List.mem_map.mp hl
  refine ⟨p.2, List.mem_filterMap.mpr ⟨p, hp, ?_⟩⟩
  rw [hfst, if_pos rfl]

theorem groupCells_subset {idx : List PLabel} {c : Col} {l : PLabel} {x : Option ℚ}
    (hx : x ∈ groupCells idx c l) : x ∈ c.cells := by
  obtain ⟨p, hp, he⟩ := List.mem_filterMap.mp hx
  by_cases h : p.1 = l
  · rw [if_pos h] at he
    obtain ⟨-, h2⟩ := List.of_mem_zip hp
    rw [← Option.some_inj.mp he]; exact h2
  · rw [if_neg h] at he; exact absurd he (Option.noConfusion)

theorem meanCells_ne_none {cs : List (Option ℚ)} (hne : ∃ x, x ∈ cs)
    (hall : ∀ x ∈ cs, x ≠ none) : meanCells cs ≠ none := by
  obtain ⟨x, hx⟩ := hne
  obtain ⟨q, hq⟩ := Option.ne_none_iff_exists'.mp (hall x hx)
  have hmem : q ∈ cs.filterMap id := List.mem_filterMap.mpr ⟨x, hx, by rw [hq]; rfl⟩
  have hlen : (cs.filterMap id).length ≠ 0 :=
    List.length_pos.mpr (List.ne_nil_of_mem hmem) |>.ne'
  unfold meanCells
  simp only [hlen, if_false]
  exact Option.some_ne_none _

theorem fillna0_noNA (m : DataFrame) : NoNA (fillna0 m) := by
  intro c hc x hx
  obtain ⟨c0, -, hce⟩ := List.mem_map.mp hc
  rw [← hce] at hx
  obtain ⟨y, -, hye⟩ := List.mem_map.mp hx
  rw [← hye]
  exact Option.some_ne_none _

theorem hasNA_false_noNA (m : DataFrame) (h : hasNA m = false) : NoNA m := by
  intro c hc x hx
  unfold hasNA at h
  simp only [List.any_eq_false, Bool.not_eq_true, Option.isNone_iff_eq_none,
    Option.isNone_eq_false_iff, Option.isSome_iff_ne_none] at h
  exact h c hc x hx

theorem fillna0_WF (m : DataFrame) (h : m.WF) : (fillna0 m).WF := by
  intro c hc
  obtain ⟨c0, hc0, hce⟩ := List.mem_map.mp hc
  rw [← hce]
  simpa using h c0 hc0

theorem fillna0_index (m : DataFrame) : (fillna0 m).index = m.index := rfl

theorem groupbyMean_noNA (m : DataFrame) (hwf : m.WF) (h : NoNA m) : NoNA (groupbyMean m) := by
  intro c hc x hx
  obtain ⟨c0, hc0, hce⟩ := List.mem_map.mp hc
  rw [← hce] at hx
  obtain ⟨l, hl, hle⟩ := List.mem_map.mp hx
  rw [← hle]
  refine meanCells_ne_none (groupCells_mem_of_mem_idx (hwf c0 hc0) (mem_groupKeys.mp hl)) ?_
  intro y hy
  exact h c0 hc0 y (groupCells_subset hy)

theorem groupbyMean_nodup (m : DataFrame) : (groupbyMean m).index.Nodup :=
  groupKeys_nodup m.index

theorem finalize_noNA (m : DataFrame) (hwf : m.WF) : NoNA (finalizeFrame m) := by
  unfold finalizeFrame
  cases h1 : hasNA m with
  | true =>
    simp only [if_true]
    cases h2 : hasDupIdx (fillna0 m) with
    | true =>
      simp only [if_true]
      exact groupbyMean_noNA _ (fillna0_WF m hwf) (fillna0_noNA m)
    | false =>
      simp only [Bool.false_eq_true, if_false]
      exact fillna0_noNA m
  | false =>
    simp only [Bool.false_eq_true, if_false]
    cases h2 : hasDupIdx m with
    | true =>
      simp only [if_true]
      exact groupbyMean_noNA _ hwf (hasNA_false_noNA m h1)
    | false =>
      simp only [Bool.false_eq_true, if_false]
      exact hasNA_false_noNA m h1

theorem nodup_of_hasDup_false {m : DataFrame} (h : hasDupIdx m = false) : m.index.Nodup := by
  unfold hasDupIdx at h
  exact not_not.mp (of_decide_eq_false h)

theorem finalize_nodup (m : DataFrame) : (finalizeFrame m).index.Nodup := by
  unfold finalizeFrame
  cases h1 : hasNA m with
  | true =>
    simp only [if_true]
    cases h2 : hasDupIdx (fillna0 m) with
    | true => simp only [if_true]; exact groupbyMean_nodup _
    | false =>
      simp only [Bool.false_eq_true, if_false]
      exact nodup_of_hasDup_false h2
  | false =>
    simp only [Bool.false_eq_true, if_false]
    cases h2 : hasDupIdx m with
    | true => simp only [if_true]; exact groupbyMean_nodup _
    | false =>
      simp only [Bool.false_eq_true, if_false]
      exact nodup_of_hasDup_false h2

theorem fillna0_labels (m : DataFrame) :
    (fillna0 m).cols.map Col.label = m.cols.map Col.label := by
  unfold fillna0
  rw [List.map_map]
  exact List.map_congr_left (fun c _ => rfl)

theorem fillna0_dtypes (m : DataFrame) :
    (fillna0 m).cols.map Col.dtype = m.cols.map Col.dtype := by
  unfold fillna0
  rw [List.map_map]
  exact List.map_congr_left (fun c _ => rfl)

theorem groupbyMean_labels (m : DataFrame) :
    (groupbyMean m).cols.map Col.label = m.cols.map Col.label := by
  unfold groupbyMean
  rw [List.map_map]
  exact List.map_congr_left (fun c _ => rfl)

theorem groupbyMean_dtypes (m : DataFrame) :
    (groupbyMean m).cols.map Col.dtype = m.cols.map Col.dtype := by
  unfold groupbyMean
  rw [List.map_map]
  exact List.map_congr_left (fun c _ => rfl)

theorem finalize_labels (m : DataFrame) :
    (finalizeFrame m).cols.map Col.label = m.cols.map Col.label := by
  unfold finalizeFrame
  cases hasNA m with
  | true =>
    simp only [if_true]
    cases hasDupIdx (fillna0 m) with
    | true => simp only [if_true]; rw [groupbyMean_labels, fillna0_labels]
    | false => simp only [Bool.false_eq_true, if_false]; exact fillna0_labels m
  | false =>
    simp only [Bool.false_eq_true, if_false]
    cases hasDupIdx m with
    | true => simp only [if_true]; exact groupbyMean_labels m
    | false => simp only [Bool.false_eq_true, if_false]

theorem finalize_dtypes (m : DataFrame) :
    (finalizeFrame m).cols.map Col.dtype = m.cols.map Col.dtype := by
  unfold finalizeFrame
  cases hasNA m with
  | true =>
    simp only [if_true]
    cases hasDupIdx (fillna0 m) with
    | true => simp only [if_true]; rw [groupbyMean_dtypes, fillna0_dtypes]
    | false => simp only [Bool.false_eq_true, if_false]; exact fillna0_dtypes m
  | false =>
    simp only [Bool.false_eq_true, if_false]
    cases hasDupIdx m with
    | true => simp only [if_true]; exact groupbyMean_dtypes m
    | false => simp only [Bool.false_eq_true, if_false]

/-- Transfer a per-column fact along an equality of mapped column views. -/
theorem forall_map_transfer {α : Type} {f : Col → α} {P : α → Prop} {l1 l2 : List Col}
    (h : l2.map f = l1.map f) (hs : ∀ c ∈ l1, P (f c)) : ∀ c ∈ l2, P (f c) := by
  intro c hc
  have hmem : f c ∈ l2.map f := List.mem_map_of_mem f hc
  rw [h] at hmem
  obtain ⟨c0, hc0, he⟩ := List.mem_map.mp hmem
  rw [← he]
  exact hs c0 hc0

theorem strCols_of_labels_eq {m2 m : DataFrame}
    (h : m2.cols.map Col.label = m.cols.map Col.label) (hs : StrCols m) : StrCols m2 := by
  intro c hc
  have hmem : c.label ∈ m2.cols.map Col.label := List.mem_map_of_mem Col.label hc
  rw [h] at hmem
  obtain ⟨c0, hc0, he⟩ := List.mem_map.mp hmem
  rw [← he]
  exact hs c0 hc0

theorem labelAstype_isStr (l : PLabel) : (labelAstype l).isStr = true := by
  cases l <;> rfl

theorem colsAstypeStr_strCols (m : DataFrame) : StrCols (colsAstypeStr m) := by
  intro c hc
  obtain ⟨c0, -, he⟩ := List.mem_map.mp hc
  rw [← he]
  exact labelAstype_isStr c0.label

theorem selectNumeric_strCols (m : DataFrame) (h : StrCols m) : StrCols (selectNumeric m) :=
  fun c hc => h c (List.mem_of_mem_filter hc)

theorem selectNumeric_dtypes (m : DataFrame) :
    ∀ c ∈ (selectNumeric m).cols, c.dtype = Dtype.numeric := by
  intro c hc
  have := List.of_mem_filter hc
  simpa using this

theorem clip0_index (m : DataFrame) : (clip0 m).index = m.index := rfl

theorem clip0_noNA (m : DataFrame) (h : NoNA m) : NoNA (clip0 m) := by
  intro c hc x hx
  obtain ⟨c0, hc0, hce⟩ := List.mem_map.mp hc
  rw [← hce] at hx
  obtain ⟨y, hy, hye⟩ := List.mem_map.mp hx
  rw [← hye]
  intro hcontra
  exact h c0 hc0 y hy (Option.map_eq_none.mp hcontra)

theorem clip0_nonneg (m : DataFrame) : NonnegFrame (clip0 m) := by
  intro c hc x hx q hq
  obtain ⟨c0, -, hce⟩ := List.mem_map.mp hc
  rw [← hce] at hx
  obtain ⟨y, -, hye⟩ := List.mem_map.mp hx
  rw [← hye] at hq
  obtain ⟨p, -, hpe⟩ := Option.map_eq_some.mp hq
  rw [← hpe]
  exact le_max_right p 0

theorem setIndexFirstCol_WF (m : DataFrame) (h : m.WF) : (setIndexFirstCol m).WF := by
  unfold setIndexFirstCol
  cases hm : m.cols with
  | nil => exact h
  | cons c rest =>
    intro c2 hc2
    have hc : c.cells.length = m.index.length := h c (by rw [hm]; exact List.mem_cons_self c rest)
    have hc2m : c2 ∈ m.cols := by rw [hm]; exact List.mem_cons_of_mem c hc2
    simp only [List.length_map]
    rw [h c2 hc2m, hc]

theorem colsAstypeStr_WF (m : DataFrame) (h : m.WF) : (colsAstypeStr m).WF := by
  intro c hc
  obtain ⟨c0, hc0, he⟩ := List.mem_map.mp hc
  rw [← he]
  exact h c0 hc0

theorem selectNumeric_WF (m : DataFrame) (h : m.WF) : (selectNumeric m).WF :=
  fun c hc => h c (List.mem_of_mem_filter hc)

theorem indexAdjust_WF (m : DataFrame) (h : m.WF) : (indexAdjust m).WF := by
  unfold indexAdjust
  split
  · exact h
  · exact setIndexFirstCol_WF m h

theorem colAdjust_WF (m : DataFrame) (h : m.WF) : (colAdjust m).WF := by
  unfold colAdjust
  split
  · exact h
  · exact colsAstypeStr_WF m h

theorem loadFrameBranch_WF (m : DataFrame) (h : m.WF) : (loadFrameBranch m).WF :=
  selectNumeric_WF _ (colAdjust_WF _ (indexAdjust_WF m h))

theorem toFrame_WF (s : SeriesV) (h : s.cells.length = s.index.length) : (toFrame s).WF := by
  intro c hc
  simp only [toFrame, List.mem_singleton] at hc
  rw [hc]
  exact h

theorem fileAdjust_WF (fname : String) (f : PFile) (h : (readAsFrame f).WF) :
    (fileAdjust fname f).WF := by
  unfold fileAdjust
  split
  · exact h
  · show (if (readAsFrame f).cols.length = 1 then colsAstypeStr (readAsFrame f) else readAsFrame f).WF
    split
    · exact colsAstypeStr_WF _ h
    · exact h

theorem loadFileBranch_WF (fname : String) (f : PFile) (h : (readAsFrame f).WF) :
    (loadFileBranch fname f).WF :=
  selectNumeric_WF _ (fileAdjust_WF fname f h)

theorem runResOf_coreInput (conf : GSVAconf) (df0 : DataFrame) :
    (runResOf conf df0).coreInput = coreInputOf conf df0 := rfl

theorem run_load_error (conf : GSVAconf) (fs : FS) (e : PyErr)
    (h : load_data conf.data fs = .error e) : run conf fs = ([], .error e) := by
  unfold run
  rw [h]

theorem run_assert_fail (conf : GSVAconf) (fs : FS) (df0 : DataFrame) (d2 : PyVal)
    (h : load_data conf.data fs = .ok (df0, d2)) (hmin : ¬ conf.min_size ≤ conf.max_size) :
    run conf fs = ([.dataLoaded, .gmtFiltered], .error .assertionError) := by
  unfold run
  rw [h]
  simp only [hmin, if_false]

theorem run_ok (conf : GSVAconf) (fs : FS) (df0 : DataFrame) (d2 : PyVal)
    (h : load_data conf.data fs = .ok (df0, d2)) (hmin : conf.min_size ≤ conf.max_size) :
    run conf fs = ([.dataLoaded, .gmtFiltered, .coreCalled], .ok (runResOf conf df0)) := by
  unfold run
  rw [h]
  simp only [hmin, if_true]

theorem execSchedule_eval {α : Type} (task : ℕ → α) (order : List ℕ) (acc : ℕ → α) (i : ℕ) :
    execSchedule task order acc i = if i ∈ order then task i else acc i := by
  induction order generalizing acc with
  | nil => simp [execSchedule]
  | cons t ts ih =>
    unfold execSchedule
    rw [ih]
    by_cases hts : i ∈ ts
    · simp [hts, List.mem_cons]
    · by_cases hit : i = t
      · subst hit
        simp [hts]
      · simp [hts, hit, List.mem_cons]

theorem phaseRun_covers {α : Type} (task : ℕ → α) (dflt : α) (n : ℕ) (o : List ℕ)
    (h : covers o n) : phaseRun task dflt n o = (List.range n).map task := by
  unfold phaseRun
  refine List.map_congr_left ?_
  intro i hi
  rw [execSchedule_eval, if_pos (h i (List.mem_range.mp hi))]

theorem load_data_df_eq (m : DataFrame) (fs : FS) :
    load_data (.pdDataFrame m) fs = .ok (finalizeFrame (loadFrameBranch m), .pdDataFrame m) := rfl

theorem load_data_series_none (idx : List PLabel) (dt : Dtype) (cl : List (Option ℚ)) (fs : FS) :
    load_data (.pdSeries ⟨idx, .noneN, dt, cl⟩) fs
      = .ok (finalizeFrame (toFrame ⟨idx, .pyStr "sample1", dt, cl⟩),
             .pdSeries ⟨idx, .pyStr "sample1", dt, cl⟩) := rfl

theorem load_data_series_pystr (idx : List PLabel) (dt : Dtype) (cl : List (Option ℚ))
    (fs : FS) (t : String) :
    load_data (.pdSeries ⟨idx, .pyStr t, dt, cl⟩) fs = .error .attributeError := rfl

theorem load_data_series_np (idx : List PLabel) (dt : Dtype) (cl : List (Option ℚ))
    (fs : FS) (t : String) :
    load_data (.pdSeries ⟨idx, .npScalar t, dt, cl⟩) fs
      = .ok (finalizeFrame (toFrame ⟨idx, .pyStr t, dt, cl⟩),
             .pdSeries ⟨idx, .pyStr t, dt, cl⟩) := rfl

theorem load_data_pyNone (fs : FS) : load_data .pyNone fs = .error .typeError := rfl

theorem load_data_pyList (fs : FS) : load_data .pyList fs = .error .typeError := rfl

theorem load_data_file_found {f : String} {fs : FS} {pf : PFile} (h : lookupFS fs f = some pf) :
    load_data (.pyStrV f) fs = .ok (finalizeFrame (loadFileBranch f pf), .pyStrV f) := by
  unfold load_data osPathIsfile
  dsimp only
  rw [h]
  rfl

theorem load_data_file_missing {f : String} {fs : FS} (h : lookupFS fs f = none) :
    load_data (.pyStrV f) fs = .error (.exceptionMsg "Error parsing gene ranking values!") := by
  unfold load_data osPathIsfile
  dsimp only
  rw [h]
  rfl

theorem load_data_df_inv {m : DataFrame} {fs : FS} {df : DataFrame} {d2 : PyVal}
    (h : load_data (.pdDataFrame m) fs = .ok (df, d2)) :
    df = finalizeFrame (loadFrameBranch m) ∧ d2 = .pdDataFrame m := by
  rw [load_data_df_eq] at h
  simp only [Except.ok.injEq, Prod.mk.injEq] at h
  exact ⟨h.1.symm, h.2.symm⟩

theorem load_data_series_inv {s : SeriesV} {fs : FS} {df : DataFrame} {d2 : PyVal}
    (h : load_data (.pdSeries s) fs = .ok (df, d2)) :
    ∃ s2 : SeriesV, d2 = .pdSeries s2 ∧ df = finalizeFrame (toFrame s2) ∧
      s2.index = s.index ∧ s2.cells = s.cells ∧ s2.dtype = s.dtype ∧
      ((s.name = .noneN ∧ s2.name = .pyStr "sample1")
        ∨ (∃ t, s.name = .npScalar t ∧ s2.name = .pyStr t)) := by
  obtain ⟨idx, nm, dt, cl⟩ := s
  cases nm with
  | noneN =>
    rw [load_data_series_none] at h
    simp only [Except.ok.injEq, Prod.mk.injEq] at h
    exact ⟨⟨idx, .pyStr "sample1", dt, cl⟩, h.2.symm, h.1.symm, rfl, rfl, rfl,
      Or.inl ⟨rfl, rfl⟩⟩
  | pyStr t =>
    rw [load_data_series_pystr] at h
    exact absurd h (by simp)
  | npScalar t =>
    rw [load_data_series_np] at h
    simp only [Except.ok.injEq, Prod.mk.injEq] at h
    exact ⟨⟨idx, .pyStr t, dt, cl⟩, h.2.symm, h.1.symm, rfl, rfl, rfl,
      Or.inr ⟨t, rfl, rfl⟩⟩

theorem load_data_file_inv {f : String} {fs : FS} {df : DataFrame} {d2 : PyVal}
    (h : load_data (.pyStrV f) fs = .ok (df, d2)) :
    ∃ pf, lookupFS fs f = some pf ∧ df = finalizeFrame (loadFileBranch f pf) ∧ d2 = .pyStrV f := by
  cases hlook : lookupFS fs f with
  | none =>
    rw [load_data_file_missing hlook] at h
    exact absurd h (by simp)
  | some pf =>
    rw [load_data_file_found hlook] at h
    simp only [Except.ok.injEq, Prod.mk.injEq] at h
    exact ⟨pf, rfl, h.1.symm, h.2.symm⟩

theorem lookupFS_WF {f : String} {fs : FS} {pf : PFile}
    (hwf : ∀ p ∈ fs, (readAsFrame p.2).WF) (h : lookupFS fs f = some pf) :
    (readAsFrame pf).WF := by
  unfold lookupFS at h
  obtain ⟨pr, hfind, he⟩ := Option.map_eq_some.mp h
  rw [← he]
  exact hwf pr (List.mem_of_find?_eq_some hfind)

theorem finalize_strCols (m : DataFrame) (h : StrCols m) : StrCols (finalizeFrame m) :=
  strCols_of_labels_eq (finalize_labels m) h

theorem readAsFrame_strCols (f : PFile) : StrCols (readAsFrame f) := by
  intro c hc
  obtain ⟨c0, -, he⟩ := List.mem_map.mp hc
  rw [← he]
  rfl

theorem fileAdjust_strCols (fname : String) (f : PFile) : StrCols (fileAdjust fname f) := by
  unfold fileAdjust
  split
  · exact readAsFrame_strCols f
  · show StrCols (if (readAsFrame f).cols.length = 1 then colsAstypeStr (readAsFrame f) else readAsFrame f)
    split
    · exact colsAstypeStr_strCols _
    · exact readAsFrame_strCols f

theorem finalize_numeric (m : DataFrame) (h : ∀ c ∈ m.cols, c.dtype = Dtype.numeric) :
    ∀ c ∈ (finalizeFrame m).cols, c.dtype = Dtype.numeric := by
  intro c hc
  have hmem : c.dtype ∈ (finalizeFrame m).cols.map Col.dtype := List.mem_map_of_mem Col.dtype hc
  rw [finalize_dtypes] at hmem
  obtain ⟨c0, hc0, he⟩ := List.mem_map.mp hmem
  rw [← he]
  exact h c0 hc0

set_option maxHeartbeats 1000000 in
theorem load_data_clean (data : PyVal) (fs : FS) (df : DataFrame) (d2 : PyVal)
    (hwf : WFInput data fs) (h : load_data data fs = .ok (df, d2)) :
    NoNA df ∧ df.index.Nodup := by
  cases data with
  | pdDataFrame m =>
    obtain ⟨hdf, -⟩ := load_data_df_inv h
    subst hdf
    exact ⟨finalize_noNA _ (loadFrameBranch_WF m hwf), finalize_nodup _⟩
  | pdSeries s =>
    obtain ⟨s2, -, hdf, hidx, hcl, -, -⟩ := load_data_series_inv h
    subst hdf
    have hwf2 : (toFrame s2).WF := toFrame_WF s2 (by rw [hcl, hidx]; exact hwf)
    exact ⟨finalize_noNA _ hwf2, finalize_nodup _⟩
  | pyStrV f =>
    obtain ⟨pf, hlook, hdf, -⟩ := load_data_file_inv h
    subst hdf
    have hwf2 : ∀ p ∈ fs, (readAsFrame p.2).WF := hwf
    exact ⟨finalize_noNA _ (loadFileBranch_WF f pf (lookupFS_WF hwf2 hlook)), finalize_nodup _⟩
  | pyNone =>
    rw [load_data_pyNone] at h
    exact absurd h (by simp)
  | pyList =>
    rw [load_data_pyList] at h
    exact absurd h (by simp)

/-- Claim C4: the kernel configuration is a pure function of the kcdf
constructor argument. "Gaussian" and "gaussian" select the continuous
kernel (kernel true, rnaseq false), "Poisson" and "poisson" select the
discrete kernel (kernel true, rnaseq true), and every other value,
including None, disables the kernel, in which case the raw values pass
through the kernel transform unchanged. -/
theorem c4_kernel_config :
    kernelConfig (some "Gaussian") = (true, false) ∧
    kernelConfig (some "gaussian") = (true, false) ∧
    kernelConfig (some "Poisson") = (true, true) ∧
    kernelConfig (some "poisson") = (true, true) ∧
    kernelConfig none = (false, false) ∧
    (∀ s : String, s ≠ "Gaussian" → s ≠ "gaussian" → s ≠ "Poisson" → s ≠ "poisson" →
      kernelConfig (some s) = (false, false)) ∧
    (∀ (discrete : Bool) (row : List ℚ), transformRow false discrete row = row) := by
  refine ⟨rfl, rfl, rfl, rfl, rfl, ?_, ?_⟩
  · intro s h1 h2 h3 h4
    simp [kernelConfig, h1, h2, h3, h4]
  · intro discrete row
    rfl

/-- Witness for C4 at the concrete value "Mahalanobis" and a concrete row. -/
theorem c4_witness :
    kernelConfig (some "Mahalanobis") = (false, false) ∧
    transformRow false true [(3 : ℚ)] = [(3 : ℚ)] :=
  ⟨c4_kernel_config.2.2.2.2.2.1 "Mahalanobis" (by decide) (by decide) (by decide) (by decide),
   c4_kernel_config.2.2.2.2.2.2 true [(3 : ℚ)]⟩

/-- Claim C1 counterexample: with min_size = 2 > max_size = 1, run does
not fail before touching the data. It loads the expression matrix and
filters the gene sets first, and only then raises, and the exception is
the bare AssertionError of line 143, not a ConfigurationError raised
before any data is touched. -/
theorem c1_counterexample :
    (run c1conf []).1 = [Event.dataLoaded, Event.gmtFiltered] ∧
    Event.dataLoaded ∈ (run c1conf []).1 ∧
    (run c1conf []).2 = Except.error PyErr.assertionError :=
  ⟨rfl, by decide, rfl⟩

/-- Claim C1 amended: when min_size > max_size and loading succeeds, run
raises an AssertionError only after loading the expression matrix and
filtering the gene sets (line 143 follows lines 127 and 135), and the
core engine is never invoked. -/
theorem c1_assert_after_load (conf : GSVAconf) (fs : FS) (df0 : DataFrame) (d2 : PyVal)
    (hload : load_data conf.data fs = .ok (df0, d2)) (hgt : conf.max_size < conf.min_size) :
    (run conf fs).1 = [Event.dataLoaded, Event.gmtFiltered] ∧
    Event.coreCalled ∉ (run conf fs).1 ∧
    (run conf fs).2 = Except.error PyErr.assertionError := by
  have hmin : ¬ conf.min_size ≤ conf.max_size := not_le.mpr hgt
  rw [run_assert_fail conf fs df0 d2 hload hmin]
  exact ⟨rfl, by decide, rfl⟩

/-- Witness for the amended C1 at the concrete configuration c1conf. -/
theorem c1_witness :
    load_data c1conf.data [] = .ok (c1df0, .pdDataFrame c1frame) ∧
    c1conf.max_size < c1conf.min_size ∧
    ((run c1conf []).1 = [Event.dataLoaded, Event.gmtFiltered] ∧
      Event.coreCalled ∉ (run c1conf []).1 ∧
      (run c1conf []).2 = Except.error PyErr.assertionError) :=
  ⟨rfl, by decide, c1_assert_after_load c1conf [] c1df0 (.pdDataFrame c1frame) rfl (by decide)⟩

/-- Claim C2: the matrix run passes to the core is the loaded frame
clipped at 0 exactly when the discrete (Poisson) kernel mode is
selected, and in that mode every present cell of the matrix handed to
the core is non-negative; in Gaussian mode or with the kernel disabled
the loaded frame is passed unchanged. -/
theorem c2_poisson_clip (conf : GSVAconf) (fs : FS) (df0 : DataFrame) (d2 : PyVal) (res : RunRes)
    (hload : load_data conf.data fs = .ok (df0, d2)) (hres : (run conf fs).2 = .ok res) :
    ((kernelConfig conf.kcdf).2 = true → res.coreInput = clip0 df0 ∧ NonnegFrame res.coreInput) ∧
    ((kernelConfig conf.kcdf).2 = false → res.coreInput = df0) := by
  by_cases hmin : conf.min_size ≤ conf.max_size
  · rw [run_ok conf fs df0 d2 hload hmin] at hres
    simp only [Except.ok.injEq] at hres
    subst hres
    rw [runResOf_coreInput]
    unfold coreInputOf
    constructor
    · intro hk
      rw [hk]
      exact ⟨by simp, by simpa using clip0_nonneg df0⟩
    · intro hk
      rw [hk]
      simp
  · rw [run_assert_fail conf fs df0 d2 hload hmin] at hres
    exact absurd hres (by simp)

/-- Witness for C2 at the concrete Poisson configuration c2conf, whose
input frame holds a negative cell. -/
theorem c2_witness :
    load_data c2conf.data [] = .ok (c2df0, .pdDataFrame c2frame) ∧
    (run c2conf []).2 = .ok c2res ∧
    (kernelConfig c2conf.kcdf).2 = true ∧
    (c2res.coreInput = clip0 c2df0 ∧ NonnegFrame c2res.coreInput) :=
  ⟨rfl, rfl, rfl,
   (c2_poisson_clip c2conf [] c2df0 (.pdDataFrame c2frame) c2res rfl rfl).1 rfl⟩

/-- Claim C3: for every input accepted by load_data, the returned frame
has no missing values and no duplicated gene row label (NAs having been
filled with 0 at line 112 and duplicated rows averaged at line 118), and
this already holds for the matrix run hands to the core. -/
theorem c3_clean_matrix :
    (∀ data fs df d2, WFInput data fs → load_data data fs = .ok (df, d2) →
      NoNA df ∧ df.index.Nodup) ∧
    (∀ conf fs res, WFInput conf.data fs → (run conf fs).2 = .ok res →
      NoNA res.coreInput ∧ res.coreInput.index.Nodup) := by
  refine ⟨load_data_clean, ?_⟩
  intro conf fs res hwf hres
  cases hload : load_data conf.data fs with
  | error e =>
    rw [run_load_error conf fs e hload] at hres
    exact absurd hres (by simp)
  | ok p =>
    obtain ⟨df0, d2⟩ := p
    by_cases hmin : conf.min_size ≤ conf.max_size
    · rw [run_ok conf fs df0 d2 hload hmin] at hres
      simp only [Except.ok.injEq] at hres
      subst hres
      obtain ⟨hna, hnd⟩ := load_data_clean conf.data fs df0 d2 hwf hload
      rw [runResOf_coreInput]
      unfold coreInputOf
      split
      · exact ⟨clip0_noNA df0 hna, by rw [clip0_index]; exact hnd⟩
      · exact ⟨hna, hnd⟩
    · rw [run_assert_fail conf fs df0 d2 hload hmin] at hres
      exact absurd hres (by simp)

/-- Witness for C3 at a concrete frame holding a missing cell and a
duplicated gene label. -/
theorem c3_witness :
    WFInput (.pdDataFrame c3frame) [] ∧
    load_data (.pdDataFrame c3frame) [] = .ok (c3df, .pdDataFrame c3frame) ∧
    (NoNA c3df ∧ c3df.index.Nodup) :=
  ⟨by decide, rfl,
   c3_clean_matrix.1 (.pdDataFrame c3frame) [] c3df (.pdDataFrame c3frame) (by decide) rfl⟩

/-- Claim C5: the core engine is deterministic with respect to internal
task scheduling. Any two complete schedules of the three parallel
phases (per-gene kernel transform, per-sample ranking, per-sample
enrichment columns) produce the identical CoreOut (score matrix,
rankings and surviving set names), because workers write into
pre-indexed slots. -/
theorem c5_core_deterministic (genes : List PLabel) (matrix : List (List ℚ))
    (gmt : List (String × List String)) (kernel discrete mxDiff absRnk : Bool)
    (tau minS maxS : ℕ) (o1T o1R o1S o2T o2R o2S : List ℕ)
    (h1T : covers o1T genes.length) (h1R : covers o1R (matrix.headD []).length)
    (h1S : covers o1S (matrix.headD []).length)
    (h2T : covers o2T genes.length) (h2R : covers o2R (matrix.headD []).length)
    (h2S : covers o2S (matrix.headD []).length) :
    gsvaCoreSched genes matrix gmt kernel discrete mxDiff absRnk tau minS maxS o1T o1R o1S
      = gsvaCoreSched genes matrix gmt kernel discrete mxDiff absRnk tau minS maxS o2T o2R o2S := by
  simp only [gsvaCoreSched]
  rw [phaseRun_covers _ _ _ _ h1T, phaseRun_covers _ _ _ _ h2T,
    phaseRun_covers _ _ _ _ h1R, phaseRun_covers _ _ _ _ h2R,
    phaseRun_covers _ _ _ _ h1S, phaseRun_covers _ _ _ _ h2S]

/-- Witness for C5: two different complete schedules on a concrete
two-gene, two-sample instance give the identical output. -/
theorem c5_witness :
    covers [1, 0] c5genes.length ∧ covers [0, 1] (c5matrix.headD []).length ∧
    gsvaCoreSched c5genes c5matrix c5gmt true false true false 1 1 5 [1, 0] [0, 1] [1, 0]
      = gsvaCoreSched c5genes c5matrix c5gmt true false true false 1 1 5 [0, 1] [1, 0] [0, 1] :=
  ⟨by decide, by decide,
   c5_core_deterministic c5genes c5matrix c5gmt true false true false 1 1 5
     [1, 0] [0, 1] [1, 0] [0, 1] [1, 0] [0, 1]
     (by decide) (by decide) (by decide) (by decide) (by decide) (by decide)⟩

/-- Claim C6 counterexample: a Series whose name attribute is None is
mutated in place by load_data (line 86 assigns exprs.name = "sample1"),
although the clamp-to-nonnegative pass is the claimed single exception
and load_data does not even depend on the kernel mode. The caller's
object after the call differs from the object passed in. -/
theorem c6_counterexample :
    (load_data (.pdSeries c6s) []).toOption.map Prod.snd
      = some (.pdSeries { c6s with name := .pyStr "sample1" }) ∧
    SName.pyStr "sample1" ≠ c6s.name :=
  ⟨rfl, by decide⟩

/-- Claim C6 amended: load_data never mutates the caller's object except
for the Series name normalization: a DataFrame and a filename come back
unchanged, and a Series keeps its index, cells and dtype while a None
name becomes the string "sample1" and a numpy-scalar name becomes its
string form. The Poisson clamp (line 130) allocates a new frame and is
not a mutation of the caller's object. -/
theorem c6_mutation_bound (data : PyVal) (fs : FS) (df : DataFrame) (d2 : PyVal)
    (h : load_data data fs = .ok (df, d2)) : postObject data d2 := by
  cases data with
  | pdDataFrame m => exact (load_data_df_inv h).2
  | pdSeries s =>
    obtain ⟨s2, hd2, -, hidx, hcl, hdt, hname⟩ := load_data_series_inv h
    subst hd2
    refine ⟨hidx, hcl, hdt, ?_, ?_⟩
    · intro hn
      rcases hname with ⟨-, h2⟩ | ⟨t, ht, -⟩
      · exact h2
      · rw [hn] at ht
        exact SName.noConfusion ht
    · intro t ht
      rcases hname with ⟨hn, -⟩ | ⟨u, hu, h2⟩
      · rw [hn] at ht
        exact SName.noConfusion ht
      · rw [hu] at ht
        injection ht with he
        rw [← he]
        exact h2
  | pyStrV f => exact (load_data_file_inv h).choose_spec.2.2
  | pyNone =>
    rw [load_data_pyNone] at h
    exact absurd h (by simp)
  | pyList =>
    rw [load_data_pyList] at h
    exact absurd h (by simp)

/-- Witness for the amended C6 at a concrete Series with a numpy scalar
name. -/
theorem c6_witness :
    load_data (.pdSeries c6sw) [] = .ok (c6wdf, c6post) ∧
    postObject (.pdSeries c6sw) c6post :=
  ⟨rfl, c6_mutation_bound (.pdSeries c6sw) [] c6wdf c6post rfl⟩

/-- Claim C7 counterexample: a DataFrame whose column index has object
dtype because it mixes a number with a string is returned by load_data
with the numeric label uncoerced, so not all sample labels of the
returned matrix are strings. -/
theorem c7_counterexample :
    (load_data (.pdDataFrame c7m) []).toOption.map (fun p => p.1.cols.map Col.label)
      = some [PLabel.pnum 1, PLabel.pstr "a"] ∧
    (PLabel.pnum 1).isStr = false :=
  ⟨rfl, rfl⟩

set_option maxHeartbeats 1000000 in
/-- Claim C7 amended: all sample column labels of the returned matrix
are strings for Series and file inputs unconditionally, and for
DataFrame inputs whenever the column index (after the index adjustment
of line 75-76) does not have object dtype, since the coercion at line 78
only fires on a non-object column index; an object-dtype column index
may carry non-string labels through unchanged. -/
theorem c7_string_labels (data : PyVal) (fs : FS) (df : DataFrame) (d2 : PyVal)
    (h : load_data data fs = .ok (df, d2)) :
    (∀ m, data = .pdDataFrame m →
      labelsObjectDtype ((indexAdjust m).cols.map Col.label) = false → StrCols df) ∧
    (∀ s, data = .pdSeries s → StrCols df) ∧
    (∀ f, data = .pyStrV f → StrCols df) := by
  refine ⟨?_, ?_, ?_⟩
  · intro m hm hflag
    subst hm
    obtain ⟨hdf, -⟩ := load_data_df_inv h
    subst hdf
    apply finalize_strCols
    apply selectNumeric_strCols
    unfold colAdjust
    rw [hflag]
    simp only [Bool.false_eq_true, if_false]
    exact colsAstypeStr_strCols _
  · intro s hs
    subst hs
    obtain ⟨s2, -, hdf, -, -, -, hname⟩ := load_data_series_inv h
    subst hdf
    apply finalize_strCols
    intro c hc
    simp only [toFrame, List.mem_singleton] at hc
    rw [hc]
    rcases hname with ⟨-, h2⟩ | ⟨t, -, h2⟩ <;> simp [nameToLabel, h2, PLabel.isStr]
  · intro f hf
    subst hf
    obtain ⟨pf, -, hdf, -⟩ := load_data_file_inv h
    subst hdf
    exact finalize_strCols _ (selectNumeric_strCols _ (fileAdjust_strCols f pf))

/-- Witness for the amended C7 at a concrete DataFrame with a purely
numeric column index, which the coercion turns into strings. -/
theorem c7_witness :
    load_data (.pdDataFrame c7wm) [] = .ok (c7wdf, .pdDataFrame c7wm) ∧
    labelsObjectDtype ((indexAdjust c7wm).cols.map Col.label) = false ∧
    StrCols c7wdf :=
  ⟨rfl, by decide,
   (c7_string_labels (.pdDataFrame c7wm) [] c7wdf (.pdDataFrame c7wm) rfl).1 c7wm rfl (by decide)⟩

/-- Claim C8 counterexample: for the non-path-like argument None,
os.path.isfile raises a TypeError (os.stat rejects the value before
isfile can swallow the error), so load_data fails with a TypeError and
not with the Exception carrying "Error parsing gene ranking values!". -/
theorem c8_counterexample :
    load_data .pyNone [] = .error .typeError ∧
    PyErr.typeError ≠ PyErr.exceptionMsg "Error parsing gene ranking values!" :=
  ⟨rfl, by decide⟩

/-- Claim C8 amended: every data argument that is neither a DataFrame,
nor a Series, nor a string naming an existing file makes load_data raise
an exception and return no matrix; the exception carries the message
"Error parsing gene ranking values!" when the argument is a string that
names no existing file, while a non-path-like argument (None, a list)
raises a TypeError out of os.path.isfile instead. -/
theorem c8_reject (data : PyVal) (fs : FS)
    (hdf : ∀ m, data ≠ .pdDataFrame m) (hs : ∀ s, data ≠ .pdSeries s)
    (hfile : ∀ f, data = .pyStrV f → lookupFS fs f = none) :
    (∃ e, load_data data fs = .error e) ∧
    (∀ f, data = .pyStrV f →
      load_data data fs = .error (.exceptionMsg "Error parsing gene ranking values!")) := by
  cases data with
  | pdDataFrame m => exact absurd rfl (hdf m)
  | pdSeries s => exact absurd rfl (hs s)
  | pyStrV f =>
    have hmiss := load_data_file_missing (hfile f rfl)
    exact ⟨⟨_, hmiss⟩, fun f2 hf2 => by cases hf2; exact hmiss⟩
  | pyNone =>
    exact ⟨⟨.typeError, load_data_pyNone fs⟩, fun f hf => by cases hf⟩
  | pyList =>
    exact ⟨⟨.typeError, load_data_pyList fs⟩, fun f hf => by cases hf⟩

/-- Witness for the amended C8 at a concrete filename absent from the
filesystem. -/
theorem c8_witness :
    (∃ e, load_data (.pyStrV "nofile.txt") [] = .error e) ∧
    load_data (.pyStrV "nofile.txt") []
      = .error (.exceptionMsg "Error parsing gene ranking values!") := by
  have h := c8_reject (.pyStrV "nofile.txt") []
    (fun m hm => by cases hm) (fun s hs2 => by cases hs2)
    (fun f hf => by cases hf; rfl)
  exact ⟨h.1, h.2 "nofile.txt" rfl⟩

/-- Claim C9: a Series whose name attribute is a plain Python string
makes load_data raise an AttributeError, because line 87 reads a .dtype
attribute from the non-None name and a plain string has none; a Series
whose name is None (renamed to "sample1") or whose name carries a dtype
attribute (a numpy scalar) is processed and yields a matrix. -/
theorem c9_series_name (s : SeriesV) (fs : FS) :
    (∀ t, s.name = .pyStr t → load_data (.pdSeries s) fs = .error .attributeError) ∧
    (s.name = .noneN ∨ (∃ t, s.name = .npScalar t) →
      ∃ df d2, load_data (.pdSeries s) fs = .ok (df, d2)) := by
  obtain ⟨idx, nm, dt, cl⟩ := s
  constructor
  · intro t ht
    cases nm with
    | noneN => exact SName.noConfusion ht
    | pyStr u => exact load_data_series_pystr idx dt cl fs u
    | npScalar u => exact SName.noConfusion ht
  · intro hor
    cases nm with
    | noneN => exact ⟨_, _, load_data_series_none idx dt cl fs⟩
    | npScalar u => exact ⟨_, _, load_data_series_np idx dt cl fs u⟩
    | pyStr u =>
      rcases hor with hn | ⟨t, ht⟩
      · exact SName.noConfusion hn
      · exact SName.noConfusion ht

/-- Witness for C9: a plain-string name raises, a None name is accepted. -/
theorem c9_witness :
    load_data (.pdSeries c9sa) [] = .error .attributeError ∧
    (∃ df d2, load_data (.pdSeries c9sb) [] = .ok (df, d2)) :=
  ⟨(c9_series_name c9sa []).1 "colA" rfl, (c9_series_name c9sb []).2 (Or.inl rfl)⟩

/-- Claim C10: for DataFrame and file inputs, every column of the
returned matrix has numeric dtype, and the surviving column labels are
exactly those of the numeric-dtype columns of the (index- and
label-adjusted) input frame: select_dtypes at lines 80 and 106 silently
drops the non-numeric columns and keeps the numeric ones. -/
theorem c10_numeric_columns :
    (∀ m fs df d2, load_data (.pdDataFrame m) fs = .ok (df, d2) →
      (∀ c ∈ df.cols, c.dtype = Dtype.numeric) ∧
      df.cols.map Col.label = (selectNumeric (colAdjust (indexAdjust m))).cols.map Col.label) ∧
    (∀ f pf fs df d2, lookupFS fs f = some pf → load_data (.pyStrV f) fs = .ok (df, d2) →
      (∀ c ∈ df.cols, c.dtype = Dtype.numeric) ∧
      df.cols.map Col.label = (selectNumeric (fileAdjust f pf)).cols.map Col.label) := by
  constructor
  · intro m fs df d2 h
    obtain ⟨hdf, -⟩ := load_data_df_inv h
    subst hdf
    exact ⟨finalize_numeric _ (selectNumeric_dtypes _), finalize_labels _⟩
  · intro f pf fs df d2 hlook h
    rw [load_data_file_found hlook] at h
    simp only [Except.ok.injEq, Prod.mk.injEq] at h
    obtain ⟨hdf, -⟩ := h
    subst hdf
    exact ⟨finalize_numeric _ (selectNumeric_dtypes _), finalize_labels _⟩

/-- Witness for C10 at a concrete DataFrame with one numeric and one
object column: the object column is dropped. -/
theorem c10_witness :
    load_data (.pdDataFrame c10m) [] = .ok (c10df, .pdDataFrame c10m) ∧
    (∀ c ∈ c10df.cols, c.dtype = Dtype.numeric) ∧
    c10df.cols.map Col.label
      = (selectNumeric (colAdjust (indexAdjust c10m))).cols.map Col.label := by
  have h := c10_numeric_columns.1 c10m [] c10df (.pdDataFrame c10m) rfl
  exact ⟨rfl, h.1, h.2⟩

end GsvaModel
